import Mathlib

/-!
# Verification of the perf-lab-web session orchestration layer

Shallow embedding of the repository's core: the typed domain contracts
(`src/types.ts`), the HTTP transport (`src/api/perfLabClient.ts`), and the
session orchestrator / presentation adapter (`src/components/Dashboard.tsx`,
`src/App.tsx`).

JavaScript numbers are modelled as rationals (`ℚ`); all arithmetic the
claims touch (clamping, multiplication by 100) is exact.  Asynchronous
network calls are modelled by explicit response oracles passed to each
operation, and each operation returns, alongside the new component state,
the list of network requests it issued, so that "zero network calls" and
"no refresh was issued" are provable statements.
-/

/-- JSON values, as produced by `res.json()` / `JSON.parse`. -/
inductive Json where
  | null : Json
  | bool : Bool → Json
  | num : ℚ → Json
  | str : String → Json
  | arr : List Json → Json
  | obj : List (String × Json) → Json
deriving Repr

/-- The body the transport attached to an `ApiError` (`detail` in the code):
either a parsed JSON document or a plain-text body. -/
inductive Detail where
  | json : Json → Detail
  | text : String → Detail
deriving Repr

/-- `ApiError` from `src/types.ts`.  `message` is declared `string` there, but
`handleResponse` assigns `(detail as any)?.detail`, which at runtime may be any
JSON value; we model the field with its runtime type. `status` is always set
to `res.status` by `handleResponse`. -/
structure ApiError where
  message : Json
  status : Nat
  details : Option Detail
deriving Repr

/-- A value thrown by the client layer: either a normalized `ApiError`
(thrown by `handleResponse` on a non-2xx status) or a raw JavaScript
`Error` (configuration errors, JSON-parse rejections). -/
inductive Thrown where
  | api : ApiError → Thrown
  | jsError : String → Thrown
deriving Repr

/-- `Modality` from `src/types.ts`: the fixed enumeration. -/
inductive Modality where
  | running | strength | hypertrophy | power | mixed
deriving Repr, DecidableEq

/-- `WorkoutLog` from `src/types.ts`. -/
structure WorkoutLog where
  timestamp : String
  modality : Modality
  duration_minutes : ℚ
  session_rpe : ℚ
  sleep_quality : ℚ
  life_stress_inverse : ℚ
  avg_rir : Option ℚ
  distance_meters : Option ℚ
  total_volume_load : Option ℚ
deriving Repr, DecidableEq

/-- `UnifiedStateVector` from `src/types.ts`; `skill_state` is an open
mapping from movement name to proficiency. -/
structure UnifiedStateVector where
  timestamp : String
  c_met_aerobic : ℚ
  c_nm_force : ℚ
  c_struct : ℚ
  b_met_anaerobic : ℚ
  f_met_systemic : ℚ
  f_nm_peripheral : ℚ
  f_nm_central : ℚ
  f_struct_damage : ℚ
  s_struct_signal : ℚ
  habit_strength : ℚ
  skill_state : List (String × ℚ)
deriving Repr, DecidableEq

/-- `WorkoutPrescription` from `src/types.ts`. -/
structure WorkoutPrescription where
  type : String
  focus : String
  rationale : String
  duration_min : ℚ
deriving Repr, DecidableEq

/-- `StressDose` from `src/types.ts`. -/
structure StressDose where
  d_met_systemic : ℚ
  d_nm_peripheral : ℚ
  d_nm_central : ℚ
  d_struct_damage : ℚ
  d_struct_signal : ℚ
deriving Repr, DecidableEq

/-! ## Transport layer: `src/api/perfLabClient.ts` -/

/-- A `fetch` `Response` as observed by `handleResponse`: status, status text,
the `content-type` header (`none` = header absent), and the outcomes of
`res.json()` (`none` = the parse promise rejects) and `res.text()`
(`none` = reading rejects). `statusText` is a plain string per the fetch
specification (never null), which makes the code's
`?? "API request failed"` fallback unreachable. -/
structure HttpResponse where
  status : Nat
  statusText : String
  contentType : Option String
  jsonResult : Option Json
  textResult : Option String
deriving Repr

/-- `res.ok`: status in the inclusive range 200–299. -/
def responseOk (r : HttpResponse) : Bool :=
  200 ≤ r.status && r.status < 300

/-- Does the character list start with the pattern? -/
def charsStartWith : List Char → List Char → Bool
  | _, [] => true
  | [], _ :: _ => false
  | c :: cs, p :: ps => c == p && charsStartWith cs ps

/-- Does the pattern occur as a contiguous run of the character list? -/
def charsContain (pat : List Char) : List Char → Bool
  | [] => charsStartWith [] pat
  | c :: cs => charsStartWith (c :: cs) pat || charsContain pat cs

/-- JavaScript `s.includes(pat)`: substring occurrence. -/
def includesSubstr (s pat : String) : Bool :=
  charsContain pat.toList s.toList

/-- `contentType && contentType.includes("application/json")`: a missing
header is `null` (falsy) and the empty string is falsy as well, which
coincides with `includesSubstr "" _ = false`. -/
def contentTypeIsJson : Option String → Bool
  | none => false
  | some ct => includesSubstr ct "application/json"

/-- `(detail as any)?.detail`: property access on the captured detail value;
only a JSON object with a `detail` key yields a value. -/
def detailField : Option Detail → Option Json
  | some (.json (.obj fields)) => fields.lookup "detail"
  | _ => none

/-- Builds the `ApiError` thrown on a non-2xx response:
`message = (detail as any)?.detail ?? res.statusText`, `status = res.status`,
`details = detail`.  A present-but-`null` `detail` field is nullish and falls
through to the status text. -/
def apiErrorOf (r : HttpResponse) (detail : Option Detail) : ApiError :=
  { message :=
      match detailField detail with
      | some Json.null => Json.str r.statusText
      | some v => v
      | none => Json.str r.statusText
    status := r.status
    details := detail }

/-- `handleResponse` from `src/api/perfLabClient.ts`.  On a non-2xx status it
captures a detail (JSON body when the content type is JSON and parsing
succeeds; text body otherwise; nothing when the chosen read rejects) and
throws the normalized `ApiError`.  On success it parses JSON when the content
type is JSON (a parse rejection escapes as a raw error) and otherwise
resolves to `undefined` (`none`). -/
def handleResponse (r : HttpResponse) : Except Thrown (Option Json) :=
  let isJson := contentTypeIsJson r.contentType
  if responseOk r then
    if isJson then
      match r.jsonResult with
      | some j => .ok (some j)
      | none => .error (.jsError "Unexpected end of JSON input")
    else
      .ok none
  else
    let detail : Option Detail :=
      if isJson then r.jsonResult.map Detail.json
      else r.textResult.map Detail.text
    .error (.api (apiErrorOf r detail))

/-- The module configuration: `import.meta.env.VITE_API_BASE_URL`
(`none` = variable unset). -/
structure ClientConfig where
  rawBase : Option String
deriving Repr

/-- `API_ROOT = RAW_BASE ? RAW_BASE.replace(/\/$/, "") : ""`: truthiness
sends both an unset variable and the empty string to `""`; the regex strips
exactly one trailing slash. -/
def apiRootOf (c : ClientConfig) : String :=
  match c.rawBase with
  | none => ""
  | some s => if s = "" then "" else (if s.endsWith "/" then s.dropRight 1 else s)

/-- `API_V1_BASE = API_ROOT ? API_ROOT + "/v1" : ""`. -/
def apiV1BaseOf (c : ClientConfig) : String :=
  if apiRootOf c = "" then "" else apiRootOf c ++ "/v1"

/-- Hexadecimal digit for `encodeURIComponent` percent escapes (uppercase). -/
def hexDigitChar (n : Nat) : Char :=
  if n < 10 then Char.ofNat (48 + n) else Char.ofNat (55 + n)

/-- `%XX` escape of one byte. -/
def percentEncodeByte (b : Nat) : String :=
  String.mk ['%', hexDigitChar (b / 16), hexDigitChar (b % 16)]

/-- Characters `encodeURIComponent` leaves unescaped:
`A–Z a–z 0–9 - _ . ! ~ * ' ( )`. -/
def uriUnreserved (ch : Char) : Bool :=
  ch.isAlphanum || ['-', '_', '.', '!', '~', '*', '\'', '(', ')'].contains ch

/-- `encodeURIComponent`: unreserved characters pass through; every other
code point is replaced by the percent escapes of its UTF-8 bytes. -/
def encodeURIComponent (s : String) : String :=
  String.join (s.toList.map fun ch =>
    if uriUnreserved ch then String.singleton ch
    else String.join ((String.singleton ch).toUTF8.toList.map
      fun b => percentEncodeByte b.toNat))

/-- HTTP request method. -/
inductive HttpMethod where
  | get | post
deriving Repr, DecidableEq

/-- One `fetch` call as issued by the client.  POST bodies are
`JSON.stringify(log)`; we carry the log value itself rather than its wire
bytes, since no claim inspects the serialization. -/
structure NetRequest where
  url : String
  method : HttpMethod
  body : Option WorkoutLog
deriving Repr

/-- `ping` from `src/api/perfLabClient.ts`: throws a configuration `Error`
before any fetch when `API_ROOT` is empty; otherwise issues one GET and
normalizes the response.  The second component lists the fetches issued. -/
def ping (c : ClientConfig) (net : NetRequest → HttpResponse) :
    Except Thrown (Option Json) × List NetRequest :=
  if apiRootOf c = "" then
    (.error (.jsError "VITE_API_BASE_URL is not configured"), [])
  else
    let req : NetRequest := { url := apiRootOf c ++ "/ping", method := .get, body := none }
    (handleResponse (net req), [req])

/-- `getNextSession` from `src/api/perfLabClient.ts`. -/
def getNextSession (c : ClientConfig) (net : NetRequest → HttpResponse)
    (goal : String) : Except Thrown (Option Json) × List NetRequest :=
  if apiV1BaseOf c = "" then
    (.error (.jsError "VITE_API_BASE_URL is not configured (no /v1 base)"), [])
  else
    let req : NetRequest :=
      { url := apiV1BaseOf c ++ "/next-session?goal=" ++ encodeURIComponent goal
        method := .get, body := none }
    (handleResponse (net req), [req])

/-- `logWorkout` from `src/api/perfLabClient.ts`. -/
def logWorkout (c : ClientConfig) (net : NetRequest → HttpResponse)
    (log : WorkoutLog) : Except Thrown (Option Json) × List NetRequest :=
  if apiV1BaseOf c = "" then
    (.error (.jsError "VITE_API_BASE_URL is not configured (no /v1 base)"), [])
  else
    let req : NetRequest :=
      { url := apiV1BaseOf c ++ "/log-workout", method := .post, body := some log }
    (handleResponse (net req), [req])

/-- `simulateDose` from `src/api/perfLabClient.ts`. -/
def simulateDose (c : ClientConfig) (net : NetRequest → HttpResponse)
    (log : WorkoutLog) : Except Thrown (Option Json) × List NetRequest :=
  if apiV1BaseOf c = "" then
    (.error (.jsError "VITE_API_BASE_URL is not configured (no /v1 base)"), [])
  else
    let req : NetRequest :=
      { url := apiV1BaseOf c ++ "/simulate-dose", method := .post, body := some log }
    (handleResponse (net req), [req])

/-! ## Session orchestrator: `src/components/Dashboard.tsx`

Each handler is embedded as a pure function from the component state (and the
outcomes of the awaited network calls, supplied as oracles) to the new
component state, paired with the list of network calls the handler issued.
The oracle types mirror the typed client signatures (`logWorkout` resolves to
a `UnifiedStateVector`, and so on); an `Except.error` outcome is a rejected
promise, which the handler catches. -/

/-- The React state of `Dashboard` (`useState` hooks). -/
structure DashboardState where
  prescription : Option WorkoutPrescription
  latestState : Option UnifiedStateVector
  simulatedDose : Option StressDose
  logForm : WorkoutLog
  goal : String
  loadingRx : Bool
  loggingWorkout : Bool
  error : Option Thrown
deriving Repr

/-- The network calls a handler can issue. -/
inductive NetCall where
  | logWorkoutCall : WorkoutLog → NetCall
  | nextSessionCall : String → NetCall
  | simulateDoseCall : WorkoutLog → NetCall
deriving Repr, DecidableEq

/-- `{ ...logForm, timestamp: nowIso() }`: the log actually transmitted by
`handleSubmit` and `handleSimulateDose` — the draft with its timestamp
replaced by the submission instant. -/
def sentLog (form : WorkoutLog) (now : String) : WorkoutLog :=
  { form with timestamp := now }

/-- `handleSubmit` from `Dashboard.tsx` (the commit-workout cycle; identical
control flow to `handleDtLog` in `src/App.tsx`): set the logging flag, clear
the error and dose-preview slots, POST the stamped form via `logWorkout`; on
success store the returned state vector wholesale and then fetch a fresh
prescription for the current goal; any rejection lands in the error slot. -/
def handleSubmit (s : DashboardState) (now : String)
    (logWorkoutNet : WorkoutLog → Except Thrown UnifiedStateVector)
    (getNextSessionNet : String → Except Thrown WorkoutPrescription) :
    DashboardState × List NetCall :=
  let s1 := { s with loggingWorkout := true, error := none, simulatedDose := none }
  let sent := sentLog s.logForm now
  match logWorkoutNet sent with
  | .error e =>
      ({ s1 with error := some e, loggingWorkout := false }, [.logWorkoutCall sent])
  | .ok newState =>
      let s2 := { s1 with latestState := some newState }
      match getNextSessionNet s.goal with
      | .ok rx =>
          ({ s2 with prescription := some rx, loggingWorkout := false },
           [.logWorkoutCall sent, .nextSessionCall s.goal])
      | .error e =>
          ({ s2 with error := some e, loggingWorkout := false },
           [.logWorkoutCall sent, .nextSessionCall s.goal])

/-- `handleSimulateDose` from `Dashboard.tsx` (identical control flow to
`handleDtSimulate` in `src/App.tsx`): clear the error and dose slots, POST
the stamped form via `simulateDose`; store the dose on success, the thrown
value on failure.  It never touches `latestState` or `prescription`. -/
def handleSimulateDose (s : DashboardState) (now : String)
    (simulateDoseNet : WorkoutLog → Except Thrown StressDose) :
    DashboardState × List NetCall :=
  let s1 := { s with error := none, simulatedDose := none }
  let sent := sentLog s.logForm now
  match simulateDoseNet sent with
  | .ok dose => ({ s1 with simulatedDose := some dose }, [.simulateDoseCall sent])
  | .error e => ({ s1 with error := some e }, [.simulateDoseCall sent])

/-- `handleRefreshRx` from `Dashboard.tsx`: manual refresh for the current
goal; applies whatever its response is, with no cancellation guard. -/
def handleRefreshRx (s : DashboardState)
    (getNextSessionNet : String → Except Thrown WorkoutPrescription) :
    DashboardState × List NetCall :=
  let s1 := { s with loadingRx := true, error := none }
  match getNextSessionNet s.goal with
  | .ok rx => ({ s1 with prescription := some rx, loadingRx := false }, [.nextSessionCall s.goal])
  | .error e => ({ s1 with error := some e, loadingRx := false }, [.nextSessionCall s.goal])

/-! ## The goal-driven prescription effect (`useEffect` on `[goal]`)

Every run of the effect captures a fresh `cancelled` flag; the cleanup that
React runs when `goal` changes (or on unmount) sets the previous run's flag.
A run's resolution applies its response only under `if (!cancelled)`.  We
record one entry per effect run, in dispatch order, and deliver responses by
run index, in any arrival order. -/

/-- One run of the goal effect: the goal it fetched for and its
`cancelled` flag. -/
structure RxEffectRun where
  goal : String
  cancelled : Bool
deriving Repr, DecidableEq

/-- React state touched by the goal effect. -/
structure GoalEffectState where
  prescription : Option WorkoutPrescription
  error : Option Thrown
  loadingRx : Bool
  runs : List RxEffectRun
deriving Repr

/-- Effect cleanup: `cancelled = true` on the most recent run. -/
def cancelLast : List RxEffectRun → List RxEffectRun
  | [] => []
  | [r] => [{ r with cancelled := true }]
  | r :: rs => r :: cancelLast rs

/-- Events of the goal effect: a goal change (cleanup of the previous run,
then dispatch of a new one, which sets the loading flag and clears the
error), or the arrival of run `i`'s response. -/
inductive RxEvent where
  | goalChange : String → RxEvent
  | resolve : Nat → Except Thrown WorkoutPrescription → RxEvent

/-- One step of the goal effect.  A resolution for a cancelled run changes
nothing at all (`if (!cancelled)` guards every state write, including the
`finally` that clears the loading flag). -/
def goalEffectStep (m : GoalEffectState) : RxEvent → GoalEffectState
  | .goalChange g =>
      { m with runs := cancelLast m.runs ++ [{ goal := g, cancelled := false }]
               loadingRx := true, error := none }
  | .resolve i outcome =>
      match m.runs[i]? with
      | none => m
      | some run =>
          if run.cancelled then m
          else
            match outcome with
            | .ok rx => { m with prescription := some rx, loadingRx := false }
            | .error e => { m with error := some e, loadingRx := false }

/-- Mount: the effect fires once for the initial goal. -/
def goalEffectMount (g : String) : GoalEffectState :=
  { prescription := none, error := none, loadingRx := true
    runs := [{ goal := g, cancelled := false }] }

/-! ## Presentation adapter (`renderFatigueBar`, habit and skill display) -/

/-- `renderFatigueBar`: `const v = value ?? 0;
const pct = Math.max(0, Math.min(100, v));` — the percentage displayed for a
fatigue scalar. -/
def fatigueBarPct (value : Option ℚ) : ℚ :=
  max 0 (min 100 (value.getD 0))

/-- `(latestState.habit_strength * 100)`: habit strength as a percentage. -/
def habitDisplayPct (h : ℚ) : ℚ := h * 100

/-- `(skill * 100)` in `renderSkillList`: skill proficiency as a
percentage. -/
def skillDisplayPct (p : ℚ) : ℚ := p * 100

/-! ## Fixtures used by witnesses -/

/-- A valid sample workout log (the spec's scenario log). -/
def sampleLog : WorkoutLog :=
  { timestamp := "2026-02-03T10:00:00.000Z", modality := .strength
    duration_minutes := 45, session_rpe := 7, sleep_quality := 5
    life_stress_inverse := 5, avg_rir := some 2
    distance_meters := none, total_volume_load := none }

/-- A sample server-returned state vector. -/
def sampleVec : UnifiedStateVector :=
  { timestamp := "2026-02-03T10:01:00.000Z"
    c_met_aerobic := 61, c_nm_force := 55, c_struct := 48, b_met_anaerobic := 20
    f_met_systemic := 30, f_nm_peripheral := 25, f_nm_central := 15
    f_struct_damage := 40, s_struct_signal := 12
    habit_strength := 7/10, skill_state := [("squat", 4/5)] }

/-- A sample prescription. -/
def sampleRx : WorkoutPrescription :=
  { type := "Strength", focus := "Heavy triples", rationale := "Fresh CNS", duration_min := 60 }

/-- A second sample prescription, for the Power goal. -/
def samplePowerRx : WorkoutPrescription :=
  { type := "Power", focus := "Jumps", rationale := "High readiness", duration_min := 40 }

/-- A sample dose preview. -/
def sampleDose : StressDose :=
  { d_met_systemic := 10, d_nm_peripheral := 8, d_nm_central := 6
    d_struct_damage := 5, d_struct_signal := 3 }

/-- A sample thrown failure. -/
def sampleErr : Thrown :=
  .api { message := .str "internal", status := 500, details := none }

/-- A sample dashboard state. -/
def sampleState : DashboardState :=
  { prescription := some sampleRx, latestState := none, simulatedDose := none
    logForm := sampleLog, goal := "Strength", loadingRx := false
    loggingWorkout := false, error := none }

/-! ## Helper lemmas shared by the claims -/

/-- `handleSimulateDose` writes only the dose and error slots: the state
vector and the prescription pass through untouched, whatever the outcome. -/
theorem handleSimulateDose_frame (s : DashboardState) (now : String)
    (doseNet : WorkoutLog → Except Thrown StressDose) :
    (handleSimulateDose s now doseNet).1.latestState = s.latestState ∧
    (handleSimulateDose s now doseNet).1.prescription = s.prescription := by
  cases h : doseNet (sentLog s.logForm now) <;>
    simp [handleSimulateDose, h]

/-- `handleRefreshRx` never writes the state vector. -/
theorem handleRefreshRx_latestState (s : DashboardState)
    (rxNet : String → Except Thrown WorkoutPrescription) :
    (handleRefreshRx s rxNet).1.latestState = s.latestState := by
  cases h : rxNet s.goal <;> simp [handleRefreshRx, h]

/-- A successful commit stores exactly the server-returned vector, whatever
the subsequent prescription fetch does. -/
theorem handleSubmit_ok_latestState (s : DashboardState) (now : String)
    (logNet : WorkoutLog → Except Thrown UnifiedStateVector)
    (rxNet : String → Except Thrown WorkoutPrescription)
    (v : UnifiedStateVector)
    (hok : logNet (sentLog s.logForm now) = .ok v) :
    (handleSubmit s now logNet rxNet).1.latestState = some v := by
  cases h : rxNet s.goal <;> simp [handleSubmit, hok, h]

/-- A failed commit leaves the state vector and prescription untouched and
issues exactly the one `logWorkout` call. -/
theorem handleSubmit_error_frame (s : DashboardState) (now : String)
    (logNet : WorkoutLog → Except Thrown UnifiedStateVector)
    (rxNet : String → Except Thrown WorkoutPrescription)
    (e : Thrown)
    (hfail : logNet (sentLog s.logForm now) = .error e) :
    (handleSubmit s now logNet rxNet).1.latestState = s.latestState ∧
    (handleSubmit s now logNet rxNet).1.prescription = s.prescription ∧
    (handleSubmit s now logNet rxNet).2 = [.logWorkoutCall (sentLog s.logForm now)] := by
  simp [handleSubmit, hfail]

/-! ## Claims -/

/-- **C1.** For all valid `WorkoutLog` values, a successful `commitWorkout`
(`logWorkout` followed by the orchestrator applying the result) replaces the
session's current `UnifiedStateVector` wholesale with exactly the
server-returned vector `v`; reading the state immediately after the commit
resolves yields `v`, and subsequent failed operations (a dose simulation, a
prescription refresh, or a failed commit) leave it unchanged. -/
theorem c1_commit_replaces_state_wholesale (s : DashboardState) (now now2 : String)
    (logNet : WorkoutLog → Except Thrown UnifiedStateVector)
    (rxNet : String → Except Thrown WorkoutPrescription)
    (v : UnifiedStateVector)
    (hok : logNet (sentLog s.logForm now) = .ok v) :
    (handleSubmit s now logNet rxNet).1.latestState = some v
    ∧ (∀ doseNet,
        (handleSimulateDose (handleSubmit s now logNet rxNet).1 now2 doseNet).1.latestState
          = some v)
    ∧ (∀ rxNet2,
        (handleRefreshRx (handleSubmit s now logNet rxNet).1 rxNet2).1.latestState = some v)
    ∧ (∀ logNet2 rxNet3 e,
        logNet2 (sentLog (handleSubmit s now logNet rxNet).1.logForm now2) = .error e →
        (handleSubmit (handleSubmit s now logNet rxNet).1 now2 logNet2 rxNet3).1.latestState
          = some v) := by
  have hbase := handleSubmit_ok_latestState s now logNet rxNet v hok
  refine ⟨hbase, fun doseNet => ?_, fun rxNet2 => ?_, fun logNet2 rxNet3 e hfail => ?_⟩
  · rw [(handleSimulateDose_frame _ _ _).1, hbase]
  · rw [handleRefreshRx_latestState, hbase]
  · rw [(handleSubmit_error_frame _ _ _ _ _ hfail).1, hbase]

/-- Witness for C1 at a concrete state, commit response and failing follow-up
commit. -/
theorem c1_witness :
    (handleSubmit sampleState "2026-02-03T10:02:00.000Z"
        (fun _ => .ok sampleVec) (fun _ => .ok sampleRx)).1.latestState = some sampleVec
    ∧ (handleSubmit
        (handleSubmit sampleState "2026-02-03T10:02:00.000Z"
          (fun _ => .ok sampleVec) (fun _ => .ok sampleRx)).1
        "2026-02-03T10:03:00.000Z" (fun _ => .error sampleErr)
        (fun _ => .ok sampleRx)).1.latestState = some sampleVec := by
  have h := c1_commit_replaces_state_wholesale sampleState
    "2026-02-03T10:02:00.000Z" "2026-02-03T10:03:00.000Z"
    (fun _ => .ok sampleVec) (fun _ => .ok sampleRx) sampleVec rfl
  exact ⟨h.1, h.2.2.2 (fun _ => .error sampleErr) (fun _ => .ok sampleRx) sampleErr rfl⟩

/-- **C2.** If the state-transition request of `commitWorkout` fails, the
previously held `UnifiedStateVector` and `WorkoutPrescription` are both left
unchanged, and no prescription refresh request is issued in that commit
cycle. -/
theorem c2_commit_failure_preserves (s : DashboardState) (now : String)
    (logNet : WorkoutLog → Except Thrown UnifiedStateVector)
    (rxNet : String → Except Thrown WorkoutPrescription)
    (e : Thrown)
    (hfail : logNet (sentLog s.logForm now) = .error e) :
    (handleSubmit s now logNet rxNet).1.latestState = s.latestState
    ∧ (handleSubmit s now logNet rxNet).1.prescription = s.prescription
    ∧ (handleSubmit s now logNet rxNet).2 = [.logWorkoutCall (sentLog s.logForm now)]
    ∧ ∀ g : String, NetCall.nextSessionCall g ∉ (handleSubmit s now logNet rxNet).2 := by
  have h := handleSubmit_error_frame s now logNet rxNet e hfail
  refine ⟨h.1, h.2.1, h.2.2, fun g hmem => ?_⟩
  rw [h.2.2] at hmem
  simp at hmem

/-- Witness for C2: a concrete failed commit. -/
theorem c2_witness :
    (handleSubmit sampleState "2026-02-03T10:02:00.000Z"
        (fun _ => .error sampleErr) (fun _ => .ok sampleRx)).1.latestState
      = sampleState.latestState
    ∧ (handleSubmit sampleState "2026-02-03T10:02:00.000Z"
        (fun _ => .error sampleErr) (fun _ => .ok sampleRx)).1.prescription
      = sampleState.prescription :=
  have h := c2_commit_failure_preserves sampleState "2026-02-03T10:02:00.000Z"
    (fun _ => .error sampleErr) (fun _ => .ok sampleRx) sampleErr rfl
  ⟨h.1, h.2.1⟩

/-- **C4.** When no API base URL is configured, every operation (`ping`,
`getNextSession`, `logWorkout`, `simulateDose`) fails immediately with a
configuration error before any network I/O: the issued-request list is
empty. -/
theorem c4_no_base_url_fails_fast (c : ClientConfig) (net : NetRequest → HttpResponse)
    (goal : String) (log : WorkoutLog) (h : c.rawBase = none) :
    ping c net = (.error (.jsError "VITE_API_BASE_URL is not configured"), [])
    ∧ getNextSession c net goal =
        (.error (.jsError "VITE_API_BASE_URL is not configured (no /v1 base)"), [])
    ∧ logWorkout c net log =
        (.error (.jsError "VITE_API_BASE_URL is not configured (no /v1 base)"), [])
    ∧ simulateDose c net log =
        (.error (.jsError "VITE_API_BASE_URL is not configured (no /v1 base)"), []) := by
  have hroot : apiRootOf c = "" := by simp [apiRootOf, h]
  have hv1 : apiV1BaseOf c = "" := by simp [apiV1BaseOf, hroot]
  exact ⟨by simp [ping, hroot], by simp [getNextSession, hv1],
         by simp [logWorkout, hv1], by simp [simulateDose, hv1]⟩

/-- Witness for C4: with the variable unset, the commit operation issues no
request and fails with the configuration error. -/
theorem c4_witness :
    logWorkout { rawBase := none }
        (fun _ => { status := 200, statusText := "OK", contentType := none
                    jsonResult := none, textResult := some "" })
        sampleLog =
      (.error (.jsError "VITE_API_BASE_URL is not configured (no /v1 base)"), []) :=
  (c4_no_base_url_fails_fast { rawBase := none }
    (fun _ => { status := 200, statusText := "OK", contentType := none
                jsonResult := none, textResult := some "" })
    "Strength" sampleLog rfl).2.2.1

/-- A workout log whose `session_rpe` is 11, outside the declared 1–10
range. -/
def invalidRpeLog : WorkoutLog := { sampleLog with session_rpe := 11 }

/-- The dashboard state holding that out-of-range draft. -/
def invalidRpeState : DashboardState := { sampleState with logForm := invalidRpeLog }

/-- **C5, counterexample.** The claim says client-side validation rejects an
out-of-range log and blocks both the commit and the simulate submission
before any network call.  The simulate action is a plain `type="button"`
handler, so the form's native `min`/`max` constraint validation never runs
for it, and no validation code exists in `handleSimulateDose` or the client
functions: with `session_rpe = 11` (outside 1–10) the simulate handler
issues the network call carrying that log. -/
theorem c5_counterexample :
    ((handleSimulateDose invalidRpeState "2026-02-03T10:05:00.000Z"
        (fun _ => .ok sampleDose)).2 =
      [.simulateDoseCall { invalidRpeLog with timestamp := "2026-02-03T10:05:00.000Z" }])
    ∧ ((handleSimulateDose invalidRpeState "2026-02-03T10:05:00.000Z"
        (fun _ => .ok sampleDose)).2).length = 1 := ⟨rfl, rfl⟩

/-- **C5, amended.** No validation code exists in the handlers or the client
layer; the only client-side range check is the browser's native `min`/`max`
constraint validation on the commit form's number inputs, which gates the
`submit` event itself.  At the handler level: `handleSimulateDose` — invoked
directly by a button, bypassing that native gate — always issues its network
call transmitting the draft (timestamp aside) regardless of field ranges;
and `handleSubmit`, whenever it is invoked (that is, once a draft has passed
the native constraint validation), performs no further range check and its
first network call transmits the draft as-is. -/
theorem c5_no_client_validation (s : DashboardState) (now : String)
    (logNet : WorkoutLog → Except Thrown UnifiedStateVector)
    (rxNet : String → Except Thrown WorkoutPrescription)
    (doseNet : WorkoutLog → Except Thrown StressDose) :
    (handleSimulateDose s now doseNet).2 = [.simulateDoseCall (sentLog s.logForm now)]
    ∧ (handleSubmit s now logNet rxNet).2.head? =
        some (.logWorkoutCall (sentLog s.logForm now)) := by
  constructor
  · cases h : doseNet (sentLog s.logForm now) <;> simp [handleSimulateDose, h]
  · cases h : logNet (sentLog s.logForm now) with
    | error e => simp [handleSubmit, h]
    | ok v => cases h2 : rxNet s.goal <;> simp [handleSubmit, h, h2]

/-- **C8.** `simulateDose` never mutates the current `UnifiedStateVector`,
and — success or failure alike — leaves the currently displayed prescription
untouched, for any input log. -/
theorem c8_simulate_frame (s : DashboardState) (now : String)
    (doseNet : WorkoutLog → Except Thrown StressDose) :
    (handleSimulateDose s now doseNet).1.latestState = s.latestState
    ∧ (handleSimulateDose s now doseNet).1.prescription = s.prescription :=
  handleSimulateDose_frame s now doseNet

/-- **C10.** Every commit or simulate submission transmits the form draft
with its timestamp replaced by the submission instant; all other draft
fields are sent as-is, and whenever the submission instant differs from the
draft timestamp, the draft timestamp is not the value transmitted. -/
theorem c10_timestamp_stamped_at_submission (s : DashboardState) (f : WorkoutLog)
    (now : String)
    (logNet : WorkoutLog → Except Thrown UnifiedStateVector)
    (rxNet : String → Except Thrown WorkoutPrescription)
    (doseNet : WorkoutLog → Except Thrown StressDose) :
    (sentLog f now).timestamp = now
    ∧ (sentLog f now).modality = f.modality
    ∧ (sentLog f now).duration_minutes = f.duration_minutes
    ∧ (sentLog f now).session_rpe = f.session_rpe
    ∧ (sentLog f now).sleep_quality = f.sleep_quality
    ∧ (sentLog f now).life_stress_inverse = f.life_stress_inverse
    ∧ (sentLog f now).avg_rir = f.avg_rir
    ∧ (sentLog f now).distance_meters = f.distance_meters
    ∧ (sentLog f now).total_volume_load = f.total_volume_load
    ∧ (handleSubmit s now logNet rxNet).2.head? =
        some (.logWorkoutCall (sentLog s.logForm now))
    ∧ (handleSimulateDose s now doseNet).2 = [.simulateDoseCall (sentLog s.logForm now)]
    ∧ (now ≠ f.timestamp → (sentLog f now).timestamp ≠ f.timestamp) := by
  refine ⟨rfl, rfl, rfl, rfl, rfl, rfl, rfl, rfl, rfl, ?_, ?_, fun h => h⟩
  · cases h : logNet (sentLog s.logForm now) with
    | error e => simp [handleSubmit, h]
    | ok v => cases h2 : rxNet s.goal <;> simp [handleSubmit, h, h2]
  · cases h : doseNet (sentLog s.logForm now) <;> simp [handleSimulateDose, h]

/-- Witness for C10 at a concrete draft whose stored timestamp differs from
the submission instant. -/
theorem c10_witness :
    (sentLog sampleLog "2026-02-03T10:06:00.000Z").timestamp = "2026-02-03T10:06:00.000Z"
    ∧ (sentLog sampleLog "2026-02-03T10:06:00.000Z").timestamp ≠ sampleLog.timestamp :=
  have h := c10_timestamp_stamped_at_submission sampleState sampleLog
    "2026-02-03T10:06:00.000Z" (fun _ => .ok sampleVec) (fun _ => .ok sampleRx)
    (fun _ => .ok sampleDose)
  ⟨h.1, h.2.2.2.2.2.2.2.2.2.2.2 (by decide)⟩

/-- **C6.** On a non-2xx response with a JSON content type whose parsed body
is an object with a string `detail` field, the transport throws an `ApiError`
whose message is exactly that detail string and whose status is the
response's numeric status code. -/
theorem c6_json_detail_becomes_message (r : HttpResponse)
    (fields : List (String × Json)) (d : String)
    (hok : responseOk r = false)
    (hct : contentTypeIsJson r.contentType = true)
    (hjson : r.jsonResult = some (.obj fields))
    (hdetail : fields.lookup "detail" = some (.str d)) :
    handleResponse r =
      .error (.api { message := .str d, status := r.status
                     details := some (.json (.obj fields)) }) := by
  simp [handleResponse, hok, hct, hjson, apiErrorOf, detailField, hdetail]

/-- Witness for C6: the spec's scenario — HTTP 500 with body
`{"detail":"internal"}` yields message `"internal"` and status 500. -/
theorem c6_witness :
    handleResponse
        { status := 500, statusText := "Internal Server Error"
          contentType := some "application/json"
          jsonResult := some (.obj [("detail", .str "internal")])
          textResult := none } =
      .error (.api { message := .str "internal", status := 500
                     details := some (.json (.obj [("detail", .str "internal")])) }) :=
  c6_json_detail_becomes_message
    { status := 500, statusText := "Internal Server Error"
      contentType := some "application/json"
      jsonResult := some (.obj [("detail", .str "internal")])
      textResult := none }
    [("detail", .str "internal")] "internal" rfl rfl rfl rfl

/-- A 500 response declaring JSON whose body fails to parse, with a readable
text body. -/
def malformedJson500 : HttpResponse :=
  { status := 500, statusText := "Internal Server Error"
    contentType := some "application/json"
    jsonResult := none
    textResult := some "oops" }

/-- **C7, counterexample.** The claim says that when JSON parsing of the
error body fails, the transport falls back to reading the body as text and
captures it into `ApiError.details`.  It does not: on a JSON-declared 500
whose body fails to parse, `res.text()` is never attempted, `details` is
absent, and the message falls straight back to the status phrase, even
though the text body `"oops"` was readable. -/
theorem c7_counterexample :
    handleResponse malformedJson500 =
      .error (.api { message := .str "Internal Server Error", status := 500
                     details := none }) := rfl

/-- **C7, amended.** For every non-2xx response the transport produces a
normalized `ApiError` (never a raw exception) carrying the numeric status;
when the content type is not JSON, the body read as text is captured into
`details`; when the content type is JSON, `details` is the parsed body —
so on a JSON parse failure the detail is dropped entirely (no text
fallback) and the message falls back to the transport-level status
phrase. -/
theorem c7_error_normalization (r : HttpResponse) (h : responseOk r = false) :
    ∃ e : ApiError,
      handleResponse r = .error (.api e)
      ∧ e.status = r.status
      ∧ (contentTypeIsJson r.contentType = false →
          e.details = r.textResult.map Detail.text)
      ∧ (contentTypeIsJson r.contentType = true →
          e.details = r.jsonResult.map Detail.json)
      ∧ (contentTypeIsJson r.contentType = true → r.jsonResult = none →
          e.message = .str r.statusText) := by
  refine ⟨apiErrorOf r (if contentTypeIsJson r.contentType then r.jsonResult.map Detail.json
                        else r.textResult.map Detail.text), ?_, rfl, ?_, ?_, ?_⟩
  · simp [handleResponse, h]
  · intro hct; simp [apiErrorOf, hct]
  · intro hct; simp [apiErrorOf, hct]
  · intro hct hnone; simp [apiErrorOf, detailField, hct, hnone]

/-- Witness for C7 (amended) at a concrete plain-text 404. -/
theorem c7_witness :
    ∃ e : ApiError,
      handleResponse
          { status := 404, statusText := "Not Found"
            contentType := some "text/plain"
            jsonResult := none, textResult := some "no such route" } =
        .error (.api e)
      ∧ e.status = 404
      ∧ e.details = some (.text "no such route") :=
  have h := c7_error_normalization
    { status := 404, statusText := "Not Found"
      contentType := some "text/plain"
      jsonResult := none, textResult := some "no such route" } rfl
  ⟨h.choose, h.choose_spec.1, h.choose_spec.2.1, by
    have := h.choose_spec.2.2.1 rfl
    simpa using this⟩

/-- Cleanup leaves the length of the run list unchanged. -/
theorem cancelLast_length (rs : List RxEffectRun) :
    (cancelLast rs).length = rs.length := by
  induction rs with
  | nil => rfl
  | cons x xs ih =>
    cases xs with
    | nil => rfl
    | cons y ys => simpa [cancelLast] using ih

/-- Cleanup marks exactly the most recent run cancelled. -/
theorem cancelLast_append_single (xs : List RxEffectRun) (r : RxEffectRun) :
    cancelLast (xs ++ [r]) = xs ++ [{ r with cancelled := true }] := by
  induction xs with
  | nil => rfl
  | cons x xs ih =>
    cases xs with
    | nil => rfl
    | cons y ys =>
      simpa [cancelLast] using ih

/-- **C3.** Changing the goal to `"Strength"` and then immediately to
`"Power"` dispatches two prescription requests; when the Strength response
arrives after the Power response, the Power response is applied as the
current prescription and the Strength response is discarded at resolution
time — its arrival is a complete no-op, because the effect cleanup set the
Strength run's cancellation flag before the Power run was dispatched.  The
result is independent of network completion order. -/
theorem c3_last_goal_wins (m : GoalEffectState) (rxS rxP : WorkoutPrescription) :
    let afterDispatch :=
      goalEffectStep (goalEffectStep m (.goalChange "Strength")) (.goalChange "Power")
    let afterPower :=
      goalEffectStep afterDispatch (.resolve (m.runs.length + 1) (.ok rxP))
    let afterStrength :=
      goalEffectStep afterPower (.resolve m.runs.length (.ok rxS))
    afterPower.prescription = some rxP
    ∧ afterStrength = afterPower
    ∧ afterStrength.prescription = some rxP := by
  have hlen : (cancelLast m.runs).length = m.runs.length := cancelLast_length _
  have hgetP :
      (cancelLast m.runs ++
          [{ goal := "Strength", cancelled := true },
           { goal := "Power", cancelled := false }])[m.runs.length + 1]? =
        some { goal := "Power", cancelled := false } := by
    rw [List.getElem?_append_right (by omega)]
    simp [hlen]
  have hgetS :
      (cancelLast m.runs ++
          [{ goal := "Strength", cancelled := true },
           { goal := "Power", cancelled := false }])[m.runs.length]? =
        some { goal := "Strength", cancelled := true } := by
    rw [List.getElem?_append_right (by omega)]
    simp [hlen]
  refine ⟨?_, ?_, ?_⟩ <;>
    simp [goalEffectStep, cancelLast_append_single, hgetP, hgetS]

/-- **C9.** For every fatigue scalar `v` supplied by the server — including
values below 0 or above 100 — the presentation adapter renders the
percentage `max 0 (min 100 v)`: values are clamped into `[0, 100]` (to 0
below the range, to 100 above it, unchanged inside it), while habit strength
and each skill proficiency are rendered as their value multiplied by 100. -/
theorem c9_fatigue_clamped_habit_skill_scaled (v h p : ℚ) :
    fatigueBarPct (some v) = max 0 (min 100 v)
    ∧ 0 ≤ fatigueBarPct (some v)
    ∧ fatigueBarPct (some v) ≤ 100
    ∧ (v < 0 → fatigueBarPct (some v) = 0)
    ∧ (100 < v → fatigueBarPct (some v) = 100)
    ∧ (0 ≤ v → v ≤ 100 → fatigueBarPct (some v) = v)
    ∧ habitDisplayPct h = h * 100
    ∧ skillDisplayPct p = p * 100 := by
  refine ⟨rfl, le_max_left 0 _, ?_, ?_, ?_, ?_, rfl, rfl⟩
  · exact max_le (by norm_num) (min_le_left 100 _)
  · intro hv
    have h1 : min 100 v = v := min_eq_right (by linarith)
    simp [fatigueBarPct, h1, max_eq_left hv.le]
  · intro hv
    have h1 : min 100 v = 100 := min_eq_left hv.le
    simp [fatigueBarPct, h1]
  · intro h0 h100
    have h1 : min 100 v = v := min_eq_right h100
    simp [fatigueBarPct, h1, max_eq_right h0]

/-- Witness for C9 at out-of-range and in-range concrete values: 150 renders
as 100, −5 renders as 0, 40 renders as 40, and a 0.7 habit strength renders
as 70%. -/
theorem c9_witness :
    fatigueBarPct (some 150) = 100
    ∧ fatigueBarPct (some (-5)) = 0
    ∧ fatigueBarPct (some 40) = 40
    ∧ habitDisplayPct (7/10) = 70 := by
  refine ⟨(c9_fatigue_clamped_habit_skill_scaled 150 0 0).2.2.2.2.1 (by norm_num),
          (c9_fatigue_clamped_habit_skill_scaled (-5) 0 0).2.2.2.1 (by norm_num),
          (c9_fatigue_clamped_habit_skill_scaled 40 0 0).2.2.2.2.2.1
            (by norm_num) (by norm_num), ?_⟩
  have h := (c9_fatigue_clamped_habit_skill_scaled 0 (7/10) 0).2.2.2.2.2.2.1
  rw [h]; norm_num
